import Mathlib

/-!
# Shallow embedding of the Snow-Map backend (`src/backend/app.py`)

The repository is a single Flask handler, `POST /snow-data`, that shapes a
request for an external Earth Engine service and reassembles the responses.
We embed the handler as a pure function over

* a JSON value type `JVal` modelling the parsed request body together with
  Python truthiness (`pyTruthy`), and
* an external-service oracle `EEWorld`: a function from the submitted polygon
  and the two date arguments to the data the service returns for that query
  (`EEData`): the polygon area and the filtered, cloud-sorted image
  collection.  Each image carries the values the handler later extracts with
  `getInfo()` (formatted month and date, id, `reduceRegion` results, thumbnail
  outcome).  External calls are modelled as succeeding with these values;
  transport failures of the opaque service are outside the model.

Fallible Python code (attribute errors, index errors, `None * 100`) is
embedded with `Except`; the handler's outermost `try/except` turns any such
exception into a 500 response.
-/

namespace SnowMap

/-- JSON values as Flask's `request.get_json()` delivers them to the handler
(objects as association lists, in document order). -/
inductive JVal where
  | null : JVal
  | bool : Bool → JVal
  | num : ℚ → JVal
  | str : String → JVal
  | arr : List JVal → JVal
  | obj : List (String × JVal) → JVal

/-- Python truthiness of a parsed-JSON value: `None`, `False`, `0`, `""`,
`[]` and `{}` are falsy, everything else truthy.  Used by the
`if not geometry or not start_date or not end_date` check. -/
def pyTruthy : JVal → Bool
  | .null => false
  | .bool b => b
  | .num q => !(q == 0)
  | .str s => !(s == "")
  | .arr l => !l.isEmpty
  | .obj l => !l.isEmpty

/-- Key lookup in a JSON object, `none` when the value is not an object or
the key is absent. -/
def jLookup (j : JVal) (k : String) : Option JVal :=
  match j with
  | .obj fs => fs.lookup k
  | _ => none

/-- The keys of a JSON object (empty for non-objects). -/
def objKeys : JVal → List String
  | .obj fs => fs.map (·.1)
  | _ => []

/-- One image of the filtered Sentinel-2 collection, as the external service
answers the handler's queries about it: its id and formatted acquisition
date/month, the `reduceRegion` results the two `calculate_*` helpers read
(`None` results modelled as `none`), and the thumbnail-rendering outcome for
the `try` block at lines 226–257 (`thumbOk = false` means `getThumbURL`
raises). -/
structure EEImage where
  id : String
  date : String
  month : String
  snowPixelCount : Option ℤ
  totalPixelCount : Option ℤ
  minElevation : Option ℤ
  thumbOk : Bool
  rgbUrl : String
  snowUrl : String
  deriving DecidableEq, Repr

/-- What the external service returns for one submitted query: the polygon's
area (`roi.area().getInfo()`, line 167) and the image collection after the
bounds/date/cloud/containment filters and the cloud-cover sort
(lines 170–177), in collection order. -/
structure EEData where
  polygonArea : ℚ
  images : List EEImage
  deriving DecidableEq, Repr

/-- A polygon as handed to `ee.Geometry.Polygon`: rings of (x, y) coordinate
pairs. -/
abbrev RoiPolygon := List (List (ℚ × ℚ))

/-- The external Earth Engine service, as a deterministic oracle from the
submitted polygon and the `start_date`/`end_date` arguments of `filterDate`
to the query results. -/
structure EEWorld where
  query : RoiPolygon → JVal → JVal → EEData

/-- `calculate_snow_area` (lines 24–60): snow-pixel count and valid-pixel
count scaled by 100 m² per pixel.  The two `reduceRegion(...).get(...)`
results are ee objects (always truthy as Python values), so the code always
multiplies `getInfo() * 100`; a `None` `getInfo()` result raises a
`TypeError`, modelled as `.error`. -/
def calculate_snow_area (img : EEImage) : Except Unit (ℤ × ℤ) :=
  match img.snowPixelCount with
  | none => .error ()
  | some s =>
    match img.totalPixelCount with
    | none => .error ()
    | some t => .ok (s * 100, t * 100)

/-- `calculate_permanent_snow` (lines 63–105): snow-pixel count scaled by
100 m² per pixel, and the minimum SRTM elevation among snow pixels; returns
`(0, 0)` when either `getInfo()` result is `None`. -/
def calculate_permanent_snow (img : EEImage) : ℤ × ℤ :=
  match img.snowPixelCount, img.minElevation with
  | some s, some m => (s * 100, m)
  | _, _ => (0, 0)

/-- The thumbnail `try` block (lines 226–261): on success both URLs are
returned; if any `getThumbURL` call raises, the `except` branch sets both
URLs to `None`. -/
def thumbnails (img : EEImage) : Option String × Option String :=
  if img.thumbOk then (some img.rgbUrl, some img.snowUrl) else (none, none)

/-- `[point[1], point[0]]` (line 161): swapping a vertex needs the value to
be subscriptable at indices 1 and 0; anything else raises (IndexError /
TypeError), collapsed to `.error` — non-numeric entries that Python indexing
would tolerate are rejected by `ee.Geometry.Polygon` instead, with the same
observable 500 outcome. -/
def swapPoint (p : JVal) : Except Unit (JVal × JVal) :=
  match p with
  | .arr es =>
    match es[1]?, es[0]? with
    | some b, some a => .ok (b, a)
    | _, _ => .error ()
  | _ => .error ()

/-- The reprojection loop (lines 155–162): for every ring, swap every vertex
from `[lat, lon]` to `[lon, lat]`. -/
def swapCoordinates (c : JVal) : Except Unit (List (List (JVal × JVal))) :=
  match c with
  | .arr polys =>
    polys.mapM fun poly =>
      match poly with
      | .arr points => points.mapM swapPoint
      | _ => .error ()
  | _ => .error ()

/-- `ee.Geometry.Polygon(formatted_coords)` (line 164): the client accepts
numeric coordinates and rejects anything else. -/
def eePolygon (rings : List (List (JVal × JVal))) : Except Unit RoiPolygon :=
  rings.mapM fun ring =>
    ring.mapM fun p =>
      match p with
      | (.num x, .num y) => .ok (x, y)
      | _ => .error ()

/-- How request shaping can fail: the explicit 400 return for missing
parameters, or a Python exception caught by the outer `try` (→ 500). -/
inductive ParseFail where
  | badParams : ParseFail
  | exc : ParseFail
  deriving DecidableEq, Repr

/-- Lines 143–164: read `geometry`/`start_date`/`end_date` with `data.get`
(`None` when absent), return 400 when any is falsy, then extract
`coordinates` (default `[]`), swap every vertex and build the polygon. -/
def parseRequest (data : JVal) : Except ParseFail (RoiPolygon × JVal × JVal) :=
  match data with
  | .obj fields =>
    let geometry := (fields.lookup "geometry").getD .null
    let start_date := (fields.lookup "start_date").getD .null
    let end_date := (fields.lookup "end_date").getD .null
    if !pyTruthy geometry || !pyTruthy start_date || !pyTruthy end_date then
      .error .badParams
    else
      match geometry with
      | .obj gfields =>
        let coordinates := (gfields.lookup "coordinates").getD (.arr [])
        match swapCoordinates coordinates with
        | .error _ => .error .exc
        | .ok formatted_coords =>
          match eePolygon formatted_coords with
          | .error _ => .error .exc
          | .ok roi => .ok (roi, start_date, end_date)
      | _ => .error .exc
  | _ => .error .exc

/-- One per-month row of the `results` list (lines 263–271). -/
structure MonthResult where
  month : String
  image_date : String
  image_id : String
  snow_area_m2 : ℤ
  total_area_m2 : ℤ
  rgb_url : Option String
  snow_url : Option String
  deriving DecidableEq, Repr

/-- The loop accumulators of lines 194–197: `results`,
`permanent_snow_area`, `min_snow_height` (`none` models `float('inf')`) and
`max_snow_area`. -/
structure LoopState where
  results : List MonthResult
  permanent_snow_area : ℤ
  min_snow_height : Option ℤ
  max_snow_area : ℤ
  deriving DecidableEq, Repr

/-- The initial accumulators (lines 194–197). -/
def initState : LoopState :=
  { results := [], permanent_snow_area := 0, min_snow_height := none, max_snow_area := 0 }

/-- One iteration of the per-month loop (lines 200–271): filter the
collection to the month, skip if empty, take the first (least cloudy) image,
compute the statistics, update the running aggregates and append the row. -/
def stepMonth (imgs : List EEImage) (st : LoopState) (month : String) : Except Unit LoopState :=
  let monthly := imgs.filter (fun i => i.month == month)
  match monthly with
  | [] => .ok st
  | best :: _ =>
    match calculate_snow_area best with
    | .error e => .error e
    | .ok sa =>
      let snow_area := sa.1
      let total_area := sa.2
      let max_snow_area := max st.max_snow_area snow_area
      let pr := calculate_permanent_snow best
      let perm_snow_area := pr.1
      let min_height := pr.2
      let permanent_snow_area := max st.permanent_snow_area perm_snow_area
      let min_snow_height :=
        if min_height > 0 then
          some (match st.min_snow_height with
                | none => min_height
                | some c => min c min_height)
        else st.min_snow_height
      let image_date := best.date
      let image_id := best.id
      let urls := thumbnails best
      .ok { results := st.results ++
              [{ month := month, image_date := image_date, image_id := image_id,
                 snow_area_m2 := snow_area, total_area_m2 := total_area,
                 rgb_url := urls.1, snow_url := urls.2 }],
            permanent_snow_area := permanent_snow_area,
            min_snow_height := min_snow_height,
            max_snow_area := max_snow_area }

/-- The `for month in distinct_months` loop; an exception in any iteration
aborts the whole request. -/
def runMonths (imgs : List EEImage) (st : LoopState) : List String → Except Unit LoopState
  | [] => .ok st
  | m :: ms =>
    match stepMonth imgs st m with
    | .error e => .error e
    | .ok st2 => runMonths imgs st2 ms

/-- Boolean lexicographic comparison of character lists, the order in which
the external service sorts strings. -/
def lexLe : List Char → List Char → Bool
  | [], _ => true
  | _ :: _, [] => false
  | a :: as, b :: bs => decide (a < b) || (a == b && lexLe as bs)

/-- Boolean lexicographic comparison of strings. -/
def strLe (a b : String) : Bool :=
  lexLe a.data b.data

/-- Insertion of a string into a sorted list, used to model the external
service's ascending `.sort()` of the month labels. -/
def insertSorted (x : String) : List String → List String
  | [] => [x]
  | y :: ys => if strLe x y then x :: y :: ys else y :: insertSorted x ys

/-- Ascending sort of string lists (the external `.sort()`
of line 191). -/
def sortStrings : List String → List String
  | [] => []
  | x :: xs => insertSorted x (sortStrings xs)

/-- `aggregate_array('month').distinct().sort()` (line 191): the distinct
month labels of the collection, in ascending order. -/
def distinctSortedMonths (imgs : List EEImage) : List String :=
  sortStrings (imgs.map (·.month)).dedup

/-- The `permanent_snow` object of the success response (lines 279–283). -/
structure PermanentSnow where
  area_m2 : ℤ
  min_height_m : ℤ
  total_area_m2 : ℤ
  deriving DecidableEq, Repr

/-- The success response body (lines 277–284). -/
structure SuccessBody where
  results : List MonthResult
  permanent_snow : PermanentSnow
  deriving DecidableEq, Repr

/-- A handler outcome: a 200 success body, or an error body
`{'error': message}` with its HTTP status. -/
inductive SnowResponse where
  | ok : SuccessBody → SnowResponse
  | err : Nat → String → SnowResponse
  deriving DecidableEq, Repr

/-- The 400 message of line 152. -/
def msgMissing : String := "Faltan parámetros"

/-- The 404 message of line 183. -/
def msgNoImages : String := "No se encontraron imágenes para la región y período seleccionado"

/-- The 500 message of line 288. -/
def msgInternal : String := "Error interno del servidor"

/-- Lines 167–284 after the polygon is built: everything the handler does
with the data the external service returned for the submitted query. -/
def handleWithData (d : EEData) : SnowResponse :=
  let _total_area := d.polygonArea
  if d.images.length == 0 then
    .err 404 msgNoImages
  else
    let distinct_months := distinctSortedMonths d.images
    match runMonths d.images initState distinct_months with
    | .error _ => .err 500 msgInternal
    | .ok st =>
      let min_snow_height :=
        match st.min_snow_height with
        | none => (0 : ℤ)
        | some h => h
      .ok { results := st.results,
            permanent_snow :=
              { area_m2 := st.permanent_snow_area,
                min_height_m := min_snow_height,
                total_area_m2 := st.max_snow_area } }

/-- The `POST /snow-data` handler (lines 108–288): parse and validate the
request, submit the reprojected polygon and dates to the external service,
and aggregate the per-month statistics. -/
def get_snow_data (o : EEWorld) (data : JVal) : SnowResponse :=
  match parseRequest data with
  | .error .badParams => .err 400 msgMissing
  | .error .exc => .err 500 msgInternal
  | .ok (roi, start_date, end_date) => handleWithData (o.query roi start_date end_date)

/-- JSON encoding of an optional URL (`None` → `null`). -/
def optStrJson : Option String → JVal
  | some s => .str s
  | none => .null

/-- Serialization of one `results` row, in the key order of lines 263–271. -/
def monthResultJson (r : MonthResult) : JVal :=
  .obj [("month", .str r.month),
        ("image_date", .str r.image_date),
        ("image_id", .str r.image_id),
        ("snow_area_m2", .num (r.snow_area_m2 : ℚ)),
        ("total_area_m2", .num (r.total_area_m2 : ℚ)),
        ("rgb_url", optStrJson r.rgb_url),
        ("snow_url", optStrJson r.snow_url)]

/-- Serialization of the `permanent_snow` object, in the key order of
lines 279–283. -/
def permanentSnowJson (p : PermanentSnow) : JVal :=
  .obj [("area_m2", .num (p.area_m2 : ℚ)),
        ("min_height_m", .num (p.min_height_m : ℚ)),
        ("total_area_m2", .num (p.total_area_m2 : ℚ))]

/-- The serialized HTTP response: status code and JSON body, as `jsonify`
produces them. -/
def responseJson : SnowResponse → Nat × JVal
  | .ok b => (200, .obj [("results", .arr (b.results.map monthResultJson)),
                         ("permanent_snow", permanentSnowJson b.permanent_snow)])
  | .err status msg => (status, .obj [("error", .str msg)])

/-! ## Specification-side definitions

These restate, in the spec's vocabulary, the quantities the claims compare
the response against: which image each processed month uses, and that
month's snow area (snow-pixel count × 100 m²), permanent-snow area, and
minimum snow elevation. -/

/-- The image the loop processes for a given month label: the first (least
cloudy) image of the collection whose month equals the label. -/
def bestOfMonth (imgs : List EEImage) (m : String) : Option EEImage :=
  (imgs.filter (fun i => i.month == m)).head?

/-- The chosen images of the given month labels, skipping labels with no
image, in label order. -/
def processedOf (imgs : List EEImage) (ms : List String) : List EEImage :=
  ms.filterMap (bestOfMonth imgs)

/-- The images the per-month loop processes, one per distinct month, in
ascending month order. -/
def processedMonthImages (imgs : List EEImage) : List EEImage :=
  processedOf imgs (distinctSortedMonths imgs)

/-- A month's snow area per the spec: snow-pixel count times 100 m²
(0 when the service reported no count). -/
def monthSnowArea (i : EEImage) : ℤ :=
  i.snowPixelCount.getD 0 * 100

/-- A month's permanent-snow area: the first component computed by
`calculate_permanent_snow` for the chosen image. -/
def monthPermArea (i : EEImage) : ℤ :=
  (calculate_permanent_snow i).1

/-- A month's minimum snow elevation: the second component computed by
`calculate_permanent_snow` for the chosen image. -/
def monthMinHeight (i : EEImage) : ℤ :=
  (calculate_permanent_snow i).2

/-- `x` is the maximum of the list: a member that bounds every member. -/
@[reducible] def isMaxOf (x : ℤ) (l : List ℤ) : Prop :=
  x ∈ l ∧ ∀ y ∈ l, y ≤ x

/-- `x` is the minimum of the list: a member bounded by every member. -/
@[reducible] def isMinOf (x : ℤ) (l : List ℤ) : Prop :=
  x ∈ l ∧ ∀ y ∈ l, x ≤ y

/-- The positive entries of a list of rationals, in order. -/
def posFilter (l : List ℤ) : List ℤ :=
  l.filter (fun x => decide (0 < x))

/-- The loop's `min_snow_height` update folded over a list of per-month
minimum heights (`none` models the initial `float('inf')`). -/
def minFold (c : Option ℤ) : List ℤ → Option ℤ
  | [] => c
  | h :: t =>
    minFold
      (if h > 0 then
        some (match c with
              | none => h
              | some c' => min c' h)
      else c) t

/-- The `results` row the loop produces for a chosen image whose
`reduceRegion` counts are present. -/
def entryOf (i : EEImage) : MonthResult :=
  { month := i.month, image_date := i.date, image_id := i.id,
    snow_area_m2 := i.snowPixelCount.getD 0 * 100,
    total_area_m2 := i.totalPixelCount.getD 0 * 100,
    rgb_url := (thumbnails i).1, snow_url := (thumbnails i).2 }

/-- JSON encoding of a list of polygon rings with (lat, lon) vertex pairs,
as a caller of `POST /snow-data` sends them. -/
def ringsJson (rs : List (List (ℚ × ℚ))) : JVal :=
  .arr (rs.map fun r => .arr (r.map fun p => .arr [.num p.1, .num p.2]))

/-- A well-formed request body with the given rings and date strings. -/
def mkRequest (rs : List (List (ℚ × ℚ))) (s e : String) : JVal :=
  .obj [("geometry", .obj [("type", .str "Polygon"), ("coordinates", ringsJson rs)]),
        ("start_date", .str s),
        ("end_date", .str e)]

/-- Make thumbnail rendering fail for the images of one month, leaving every
other image untouched. -/
def failMonthThumbs (m : String) (i : EEImage) : EEImage :=
  if i.month == m then { i with thumbOk := false } else i

/-- The query result `d` with thumbnail rendering failing for the images of
month `m`. -/
def failData (d : EEData) (m : String) : EEData :=
  { d with images := d.images.map (failMonthThumbs m) }

/-- An external world identical to `o` except that thumbnail rendering
fails for the images of month `m`. -/
def failThumbWorld (o : EEWorld) (m : String) : EEWorld :=
  { query := fun roi s e => failData (o.query roi s e) m }

/-- Replace the thumbnail URLs of the rows of month `m` by `null`, leaving
every other row unchanged. -/
def nullifyMonth (m : String) (r : MonthResult) : MonthResult :=
  if r.month == m then { r with rgb_url := none, snow_url := none } else r

/-! ## The lexicographic string order used by the month sort -/

theorem lexLe_total (as bs : List Char) : lexLe as bs = true ∨ lexLe bs as = true := by
  induction as generalizing bs with
  | nil => left; rfl
  | cons a as ih =>
    cases bs with
    | nil => right; rfl
    | cons b bs =>
      rcases lt_trichotomy a b with h | h | h
      · left; simp [lexLe, h]
      · subst h
        rcases ih bs with h' | h'
        · left; simp [lexLe, h']
        · right; simp [lexLe, h']
      · right; simp [lexLe, h]

theorem lexLe_trans : ∀ {as bs cs : List Char},
    lexLe as bs = true → lexLe bs cs = true → lexLe as cs = true := by
  intro as
  induction as with
  | nil => intro bs cs _ _; rfl
  | cons a as ih =>
    intro bs cs h1 h2
    cases bs with
    | nil => simp [lexLe] at h1
    | cons b bs =>
      cases cs with
      | nil => simp [lexLe] at h2
      | cons c cs =>
        simp only [lexLe, Bool.or_eq_true, Bool.and_eq_true, decide_eq_true_eq,
          beq_iff_eq] at h1 h2 ⊢
        rcases h1 with h1 | ⟨hab, h1⟩
        · rcases h2 with h2 | ⟨hbc, h2⟩
          · exact Or.inl (lt_trans h1 h2)
          · exact Or.inl (hbc ▸ h1)
        · rcases h2 with h2 | ⟨hbc, h2⟩
          · exact Or.inl (hab ▸ h2)
          · exact Or.inr ⟨hab.trans hbc, ih h1 h2⟩

theorem lexLe_lt : ∀ {as bs : List Char}, lexLe as bs = true → as ≠ bs → List.lt as bs := by
  intro as
  induction as with
  | nil =>
    intro bs _ hne
    cases bs with
    | nil => exact absurd rfl hne
    | cons b bs => exact List.lt.nil b bs
  | cons a as ih =>
    intro bs h hne
    cases bs with
    | nil => simp [lexLe] at h
    | cons b bs =>
      simp only [lexLe, Bool.or_eq_true, Bool.and_eq_true, decide_eq_true_eq,
        beq_iff_eq] at h
      rcases h with h | ⟨hab, h⟩
      · exact List.lt.head as bs h
      · subst hab
        have hne' : as ≠ bs := fun hh => hne (by rw [hh])
        exact List.lt.tail (lt_irrefl a) (lt_irrefl a) (ih h hne')

theorem strLe_total (a b : String) : strLe a b = true ∨ strLe b a = true :=
  lexLe_total a.data b.data

theorem strLe_trans {a b c : String} (h1 : strLe a b = true) (h2 : strLe b c = true) :
    strLe a c = true :=
  lexLe_trans h1 h2

theorem strLe_lt {a b : String} (h : strLe a b = true) (hne : a ≠ b) : a < b := by
  rw [String.lt_iff_toList_lt]
  show List.Lex (· < ·) a.toList b.toList
  exact (List.lt_iff_lex_lt _ _).mp (lexLe_lt h (fun hd => hne (String.toList_inj.mp hd)))

/-! ## The month sort: permutation, sortedness, uniqueness -/

theorem insertSorted_perm (x : String) (l : List String) :
    (insertSorted x l).Perm (x :: l) := by
  induction l with
  | nil => exact List.Perm.refl _
  | cons y ys ih =>
    by_cases h : strLe x y
    · simp [insertSorted, h]
    · rw [insertSorted, if_neg h]
      exact List.Perm.trans (ih.cons y) (List.Perm.swap x y ys)

theorem sortStrings_perm (l : List String) : (sortStrings l).Perm l := by
  induction l with
  | nil => exact List.Perm.refl _
  | cons x xs ih =>
    exact List.Perm.trans (insertSorted_perm x (sortStrings xs)) (ih.cons x)

theorem sorted_insertSorted (x : String) {l : List String}
    (h : l.Pairwise (fun a b => strLe a b = true)) :
    (insertSorted x l).Pairwise (fun a b => strLe a b = true) := by
  induction l with
  | nil => simp [insertSorted]
  | cons y ys ih =>
    rcases List.pairwise_cons.mp h with ⟨hy, hys⟩
    by_cases hxy : strLe x y
    · rw [insertSorted, if_pos hxy]
      refine List.pairwise_cons.mpr ⟨?_, h⟩
      intro b hb
      rcases List.mem_cons.mp hb with rfl | hb
      · exact hxy
      · exact strLe_trans hxy (hy b hb)
    · rw [insertSorted, if_neg hxy]
      refine List.pairwise_cons.mpr ⟨?_, ih hys⟩
      intro b hb
      have hb' := (insertSorted_perm x ys).mem_iff.mp hb
      rcases List.mem_cons.mp hb' with hbx | hb'
      · subst hbx
        rcases strLe_total b y with h' | h'
        · exact absurd h' hxy
        · exact h'
      · exact hy b hb'

theorem sorted_sortStrings (l : List String) :
    (sortStrings l).Pairwise (fun a b => strLe a b = true) := by
  induction l with
  | nil => simp [sortStrings]
  | cons x xs ih => exact sorted_insertSorted x ih

theorem nodup_distinctSortedMonths (imgs : List EEImage) :
    (distinctSortedMonths imgs).Nodup :=
  ((sortStrings_perm _).nodup_iff).mpr (List.nodup_dedup _)

theorem pairwise_lt_distinctSortedMonths (imgs : List EEImage) :
    (distinctSortedMonths imgs).Pairwise (· < ·) := by
  have h1 := sorted_sortStrings (imgs.map (·.month)).dedup
  have h2 := nodup_distinctSortedMonths imgs
  exact (h1.and h2).imp (fun h => strLe_lt h.1 h.2)

theorem mem_distinctSortedMonths {imgs : List EEImage} {m : String} :
    m ∈ distinctSortedMonths imgs ↔ ∃ i ∈ imgs, i.month = m := by
  rw [distinctSortedMonths, (sortStrings_perm _).mem_iff, List.mem_dedup, List.mem_map]

/-! ## The per-month loop: case analysis and characterization -/

theorem bestOfMonth_mem {imgs : List EEImage} {m : String} {best : EEImage}
    (h : bestOfMonth imgs m = some best) : best ∈ imgs ∧ best.month = m := by
  rw [bestOfMonth] at h
  cases hf : imgs.filter (fun i => i.month == m) with
  | nil => rw [hf] at h; cases h
  | cons b rest =>
    rw [hf] at h
    have hb : b = best := by injection h
    subst hb
    have hbm : b ∈ imgs.filter (fun i => i.month == m) := by
      rw [hf]; exact List.mem_cons_self _ _
    rcases List.mem_filter.mp hbm with ⟨h1, h2⟩
    exact ⟨h1, by simpa using h2⟩

theorem stepMonth_of_none {imgs : List EEImage} {st : LoopState} {m : String}
    (h : bestOfMonth imgs m = none) : stepMonth imgs st m = .ok st := by
  rw [bestOfMonth, List.head?_eq_none_iff] at h
  simp [stepMonth, h]

theorem stepMonth_of_some_err {imgs : List EEImage} {st : LoopState} {m : String}
    {best : EEImage} (h : bestOfMonth imgs m = some best)
    (hbad : best.snowPixelCount = none ∨ best.totalPixelCount = none) :
    stepMonth imgs st m = .error () := by
  rw [bestOfMonth] at h
  cases hf : imgs.filter (fun i => i.month == m) with
  | nil => rw [hf] at h; cases h
  | cons b rest =>
    rw [hf] at h
    have hb : b = best := by injection h
    subst hb
    rcases hbad with hbad | hbad
    · simp [stepMonth, hf, calculate_snow_area, hbad]
    · cases hs : b.snowPixelCount with
      | none => simp [stepMonth, hf, calculate_snow_area, hs]
      | some sc => simp [stepMonth, hf, calculate_snow_area, hs, hbad]

theorem stepMonth_of_some_ok {imgs : List EEImage} {st : LoopState} {m : String}
    {best : EEImage} {sc tc : ℤ} (h : bestOfMonth imgs m = some best)
    (hs : best.snowPixelCount = some sc) (ht : best.totalPixelCount = some tc) :
    stepMonth imgs st m = .ok
      { results := st.results ++ [entryOf best],
        permanent_snow_area := max st.permanent_snow_area (monthPermArea best),
        min_snow_height :=
          if monthMinHeight best > 0 then
            some (match st.min_snow_height with
                  | none => monthMinHeight best
                  | some c => min c (monthMinHeight best))
          else st.min_snow_height,
        max_snow_area := max st.max_snow_area (monthSnowArea best) } := by
  have hm : best.month = m := (bestOfMonth_mem h).2
  rw [bestOfMonth] at h
  cases hf : imgs.filter (fun i => i.month == m) with
  | nil => rw [hf] at h; cases h
  | cons b rest =>
    rw [hf] at h
    have hb : b = best := by injection h
    subst hb
    simp only [stepMonth, hf, calculate_snow_area, hs, ht, entryOf, monthPermArea,
      monthSnowArea, monthMinHeight, thumbnails, hm]
    rfl

theorem processedOf_cons_none {imgs : List EEImage} {m : String} (ms : List String)
    (hb : bestOfMonth imgs m = none) :
    processedOf imgs (m :: ms) = processedOf imgs ms := by
  simp [processedOf, List.filterMap_cons, hb]

theorem processedOf_cons_some {imgs : List EEImage} {m : String} {b : EEImage}
    (ms : List String) (hb : bestOfMonth imgs m = some b) :
    processedOf imgs (m :: ms) = b :: processedOf imgs ms := by
  simp [processedOf, List.filterMap_cons, hb]

theorem mem_of_mem_processedOf {imgs : List EEImage} {ms : List String} {i : EEImage}
    (h : i ∈ processedOf imgs ms) : i ∈ imgs := by
  rw [processedOf, List.mem_filterMap] at h
  obtain ⟨m, _, hm⟩ := h
  exact (bestOfMonth_mem hm).1

theorem processedOf_map_month (imgs : List EEImage) :
    ∀ ms : List String, (processedOf imgs ms).map (·.month) =
      ms.filter (fun m => (bestOfMonth imgs m).isSome) := by
  intro ms
  induction ms with
  | nil => rfl
  | cons m ms ih =>
    cases hb : bestOfMonth imgs m with
    | none => rw [processedOf_cons_none ms hb]; simp [List.filter_cons, hb, ih]
    | some b =>
      rw [processedOf_cons_some ms hb]
      simp [List.filter_cons, hb, ih, (bestOfMonth_mem hb).2]

theorem runMonths_ok_spec {imgs : List EEImage} :
    ∀ {ms : List String} {st st' : LoopState}, runMonths imgs st ms = .ok st' →
    (∀ i ∈ processedOf imgs ms, i.snowPixelCount.isSome ∧ i.totalPixelCount.isSome) ∧
    st'.results = st.results ++ (processedOf imgs ms).map entryOf ∧
    st'.max_snow_area = ((processedOf imgs ms).map monthSnowArea).foldl max st.max_snow_area ∧
    st'.permanent_snow_area =
      ((processedOf imgs ms).map monthPermArea).foldl max st.permanent_snow_area ∧
    st'.min_snow_height = minFold st.min_snow_height ((processedOf imgs ms).map monthMinHeight)
    := by
  intro ms
  induction ms with
  | nil =>
    intro st st' h
    rw [runMonths] at h
    injection h with h
    subst h
    simp [processedOf, minFold]
  | cons m ms ih =>
    intro st st' h
    rw [runMonths] at h
    cases hb : bestOfMonth imgs m with
    | none =>
      rw [stepMonth_of_none hb] at h
      have hspec := ih h
      rw [processedOf_cons_none ms hb]
      exact hspec
    | some best =>
      cases hs : best.snowPixelCount with
      | none =>
        rw [stepMonth_of_some_err hb (Or.inl hs)] at h
        cases h
      | some sc =>
        cases ht : best.totalPixelCount with
        | none =>
          rw [stepMonth_of_some_err hb (Or.inr ht)] at h
          cases h
        | some tc =>
          rw [stepMonth_of_some_ok hb hs ht] at h
          obtain ⟨hsome, hres, hmax, hperm, hmin⟩ := ih h
          rw [processedOf_cons_some ms hb]
          refine ⟨?_, ?_, ?_, ?_, ?_⟩
          · intro i hi
            rcases List.mem_cons.mp hi with rfl | hi
            · exact ⟨by rw [hs]; rfl, by rw [ht]; rfl⟩
            · exact hsome i hi
          · rw [hres]; simp
          · rw [hmax]; rfl
          · rw [hperm]; rfl
          · rw [hmin]; rfl

/-! ## Folded maxima and minima -/

theorem le_foldl_max (l : List ℤ) (a : ℤ) : a ≤ l.foldl max a := by
  induction l generalizing a with
  | nil => exact le_refl a
  | cons x xs ih => exact le_trans (le_max_left a x) (ih (max a x))

theorem mem_le_foldl_max {x : ℤ} {l : List ℤ} (hx : x ∈ l) (a : ℤ) : x ≤ l.foldl max a := by
  induction l generalizing a with
  | nil => cases hx
  | cons y ys ih =>
    rw [List.foldl_cons]
    rcases List.mem_cons.mp hx with rfl | hx
    · exact le_trans (le_max_right a x) (le_foldl_max ys (max a x))
    · exact ih hx (max a y)

theorem foldl_max_cases (l : List ℤ) (a : ℤ) : l.foldl max a = a ∨ l.foldl max a ∈ l := by
  induction l generalizing a with
  | nil => left; rfl
  | cons x xs ih =>
    rcases ih (max a x) with h | h
    · rcases max_choice a x with h' | h'
      · left; rw [List.foldl_cons, h, h']
      · right; rw [List.foldl_cons, h, h']; exact List.mem_cons_self x xs
    · right; exact List.mem_cons_of_mem x h

theorem foldl_max_isMaxOf {l : List ℤ} (h0 : ∀ x ∈ l, 0 ≤ x) (hne : l ≠ []) :
    isMaxOf (l.foldl max 0) l := by
  constructor
  · rcases foldl_max_cases l 0 with h | h
    · cases l with
      | nil => exact absurd rfl hne
      | cons y ys =>
        have h1 : y ≤ 0 := h ▸ mem_le_foldl_max (List.mem_cons_self y ys) 0
        have h2 : 0 ≤ y := h0 y (List.mem_cons_self y ys)
        rw [h, ← le_antisymm h1 h2]
        exact List.mem_cons_self y ys
    · exact h
  · intro y hy; exact mem_le_foldl_max hy 0

theorem posFilter_cons_pos {hd : ℤ} (t : List ℤ) (h0 : 0 < hd) :
    posFilter (hd :: t) = hd :: posFilter t := by
  simp [posFilter, List.filter_cons, h0]

theorem posFilter_cons_nonpos {hd : ℤ} (t : List ℤ) (h0 : ¬ 0 < hd) :
    posFilter (hd :: t) = posFilter t := by
  simp [posFilter, List.filter_cons, h0]

theorem minFold_isSome : ∀ (l : List ℤ) (c : ℤ), (minFold (some c) l).isSome = true := by
  intro l
  induction l with
  | nil => intro c; rfl
  | cons hd t ih =>
    intro c
    by_cases h0 : hd > 0
    · rw [minFold, if_pos h0]; exact ih (min c hd)
    · rw [minFold, if_neg h0]; exact ih c

theorem minFold_some_spec : ∀ (l : List ℤ) (c m : ℤ), minFold (some c) l = some m →
    (m = c ∨ m ∈ posFilter l) ∧ m ≤ c ∧ ∀ x ∈ posFilter l, m ≤ x := by
  intro l
  induction l with
  | nil =>
    intro c m h
    rw [minFold] at h
    injection h with h
    subst h
    exact ⟨Or.inl rfl, le_refl _, by simp [posFilter]⟩
  | cons hd t ih =>
    intro c m h
    by_cases h0 : hd > 0
    · rw [minFold, if_pos h0] at h
      obtain ⟨hmem, hle, hall⟩ := ih (min c hd) m h
      rw [posFilter_cons_pos t h0]
      refine ⟨?_, le_trans hle (min_le_left c hd), ?_⟩
      · rcases hmem with rfl | hm
        · rcases min_choice c hd with h' | h'
          · left; exact h'
          · right; rw [h']; exact List.mem_cons_self hd _
        · right; exact List.mem_cons_of_mem hd hm
      · intro x hx
        rcases List.mem_cons.mp hx with rfl | hx
        · exact le_trans hle (min_le_right c x)
        · exact hall x hx
    · rw [minFold, if_neg h0] at h
      obtain ⟨hmem, hle, hall⟩ := ih c m h
      rw [posFilter_cons_nonpos t h0]
      exact ⟨hmem, hle, hall⟩

theorem minFold_none_some_spec : ∀ {l : List ℤ} {m : ℤ}, minFold none l = some m →
    isMinOf m (posFilter l) := by
  intro l
  induction l with
  | nil => intro m h; cases h
  | cons hd t ih =>
    intro m h
    by_cases h0 : hd > 0
    · rw [minFold, if_pos h0] at h
      obtain ⟨hmem, hle, hall⟩ := minFold_some_spec t hd m h
      rw [posFilter_cons_pos t h0]
      refine ⟨?_, ?_⟩
      · rcases hmem with rfl | hm
        · exact List.mem_cons_self m _
        · exact List.mem_cons_of_mem hd hm
      · intro x hx
        rcases List.mem_cons.mp hx with rfl | hx
        · exact hle
        · exact hall x hx
    · rw [minFold, if_neg h0] at h
      rw [posFilter_cons_nonpos t h0]
      exact ih h

theorem minFold_none_eq_none : ∀ {l : List ℤ}, minFold none l = none → posFilter l = [] := by
  intro l
  induction l with
  | nil => intro _; rfl
  | cons hd t ih =>
    intro h
    by_cases h0 : hd > 0
    · rw [minFold, if_pos h0] at h
      have := minFold_isSome t hd
      rw [h] at this
      cases this
    · rw [minFold, if_neg h0] at h
      rw [posFilter_cons_nonpos t h0]
      exact ih h

theorem minFold_none_of_posFilter_nil : ∀ {l : List ℤ} (c : Option ℤ),
    posFilter l = [] → minFold c l = c := by
  intro l
  induction l with
  | nil => intro c _; rfl
  | cons hd t ih =>
    intro c hp
    by_cases h0 : hd > 0
    · rw [posFilter_cons_pos t h0] at hp
      cases hp
    · rw [posFilter_cons_nonpos t h0] at hp
      simp only [minFold, if_neg h0]
      exact ih c hp

/-! ## Success characterization of the handler -/

theorem processedMonthImages_ne_nil {imgs : List EEImage} (h : imgs ≠ []) :
    processedMonthImages imgs ≠ [] := by
  cases imgs with
  | nil => exact absurd rfl h
  | cons i rest =>
    intro hc
    rw [processedMonthImages, processedOf, List.filterMap_eq_nil_iff] at hc
    have hm : i.month ∈ distinctSortedMonths (i :: rest) :=
      mem_distinctSortedMonths.mpr ⟨i, List.mem_cons_self i rest, rfl⟩
    have hnone := hc _ hm
    rw [bestOfMonth, List.head?_eq_none_iff] at hnone
    have hmem : i ∈ (i :: rest).filter (fun j => j.month == i.month) :=
      List.mem_filter.mpr ⟨List.mem_cons_self i rest, by simp⟩
    rw [hnone] at hmem
    cases hmem

theorem mem_processedMonthImages_sub {imgs : List EEImage} {i : EEImage}
    (h : i ∈ processedMonthImages imgs) : i ∈ imgs :=
  mem_of_mem_processedOf h

theorem handleWithData_ok {d : EEData} {b : SuccessBody} (h : handleWithData d = .ok b) :
    d.images ≠ [] ∧
    (∀ i ∈ processedMonthImages d.images,
      i.snowPixelCount.isSome ∧ i.totalPixelCount.isSome) ∧
    b.results = (processedMonthImages d.images).map entryOf ∧
    b.permanent_snow.total_area_m2 =
      ((processedMonthImages d.images).map monthSnowArea).foldl max 0 ∧
    b.permanent_snow.area_m2 =
      ((processedMonthImages d.images).map monthPermArea).foldl max 0 ∧
    b.permanent_snow.min_height_m =
      (match minFold none ((processedMonthImages d.images).map monthMinHeight) with
       | none => (0 : ℤ)
       | some hm => hm) := by
  simp only [handleWithData] at h
  by_cases hemp : d.images.length == 0
  · rw [if_pos hemp] at h; cases h
  · rw [if_neg hemp] at h
    have hne : d.images ≠ [] := by
      intro hnil
      rw [hnil] at hemp
      exact hemp rfl
    cases hr : runMonths d.images initState (distinctSortedMonths d.images) with
    | error e => rw [hr] at h; cases h
    | ok st =>
      rw [hr] at h
      obtain ⟨hsome, hres, hmax, hperm, hmin⟩ := runMonths_ok_spec hr
      injection h with h
      subst h
      rw [processedMonthImages]
      refine ⟨hne, hsome, ?_, ?_, ?_, ?_⟩
      · rw [hres]; rfl
      · exact hmax
      · exact hperm
      · rw [hmin]; rfl

theorem get_snow_data_eq_handle {o : EEWorld} {data : JVal} {roi : RoiPolygon}
    {s e : JVal} (hp : parseRequest data = .ok (roi, s, e)) :
    get_snow_data o data = handleWithData (o.query roi s e) := by
  rw [get_snow_data, hp]

theorem get_snow_data_ok_parse {o : EEWorld} {data : JVal} {b : SuccessBody}
    (h : get_snow_data o data = .ok b) :
    ∃ roi s e, parseRequest data = .ok (roi, s, e) ∧
      handleWithData (o.query roi s e) = .ok b := by
  rw [get_snow_data] at h
  cases hp : parseRequest data with
  | error f =>
    cases f with
    | badParams => rw [hp] at h; cases h
    | exc => rw [hp] at h; cases h
  | ok v =>
    obtain ⟨roi, s, e⟩ := v
    rw [hp] at h
    exact ⟨roi, s, e, rfl, h⟩

/-! ## Nonnegativity helpers -/

theorem monthSnowArea_nonneg {i : EEImage} (h : 0 ≤ i.snowPixelCount.getD 0) :
    0 ≤ monthSnowArea i :=
  mul_nonneg h (by norm_num)

theorem monthPermArea_nonneg {i : EEImage} (h : 0 ≤ i.snowPixelCount.getD 0) :
    0 ≤ monthPermArea i := by
  cases hs : i.snowPixelCount with
  | none =>
    cases hm : i.minElevation <;>
      simp [monthPermArea, calculate_permanent_snow, hs, hm]
  | some sc =>
    cases hm : i.minElevation with
    | none => simp [monthPermArea, calculate_permanent_snow, hs, hm]
    | some mv =>
      have hsc : (0 : ℤ) ≤ sc := by rw [hs] at h; exact h
      have : monthPermArea i = sc * 100 := by
        rw [monthPermArea, calculate_permanent_snow, hs, hm]
      rw [this]
      exact mul_nonneg hsc (by norm_num)

/-! ## Claim theorems -/

/-- Claim C1: for every successful response of `POST /snow-data`, the field
`permanent_snow.total_area_m2` equals the maximum over all processed months
of that month's snow area (snow-pixel count times 100 m²), not the polygon's
total area.  The per-month snow areas of the response rows are exactly the
`monthSnowArea` values of the chosen images, and `total_area_m2` is their
maximum (stated under the factual side condition that the external service
reports nonnegative pixel counts). -/
theorem total_area_m2_is_max_monthly_snow_area
    (o : EEWorld) (data : JVal) (roi : RoiPolygon) (s e : JVal) (b : SuccessBody)
    (hp : parseRequest data = .ok (roi, s, e))
    (h : get_snow_data o data = .ok b)
    (hnn : ∀ i ∈ (o.query roi s e).images, 0 ≤ i.snowPixelCount.getD 0) :
    b.results.map (·.snow_area_m2)
      = (processedMonthImages (o.query roi s e).images).map monthSnowArea ∧
    isMaxOf b.permanent_snow.total_area_m2
      ((processedMonthImages (o.query roi s e).images).map monthSnowArea) := by
  rw [get_snow_data_eq_handle hp] at h
  obtain ⟨hne, _, hres, hmax, _, _⟩ := handleWithData_ok h
  constructor
  · rw [hres, List.map_map]
    rfl
  · rw [hmax]
    apply foldl_max_isMaxOf
    · intro x hx
      rw [List.mem_map] at hx
      obtain ⟨i, hi, rfl⟩ := hx
      exact monthSnowArea_nonneg (hnn i (mem_processedMonthImages_sub hi))
    · intro hcontra
      exact processedMonthImages_ne_nil hne (List.map_eq_nil_iff.mp hcontra)

/-- Claim C4: for every successful response of `POST /snow-data`,
`permanent_snow.area_m2` equals the maximum over all processed months of that
month's permanent-snow area (never their sum), stated under the factual side
condition that the external service reports nonnegative pixel counts. -/
theorem area_m2_is_max_monthly_permanent_snow
    (o : EEWorld) (data : JVal) (roi : RoiPolygon) (s e : JVal) (b : SuccessBody)
    (hp : parseRequest data = .ok (roi, s, e))
    (h : get_snow_data o data = .ok b)
    (hnn : ∀ i ∈ (o.query roi s e).images, 0 ≤ i.snowPixelCount.getD 0) :
    isMaxOf b.permanent_snow.area_m2
      ((processedMonthImages (o.query roi s e).images).map monthPermArea) := by
  rw [get_snow_data_eq_handle hp] at h
  obtain ⟨hne, _, _, _, hperm, _⟩ := handleWithData_ok h
  rw [hperm]
  apply foldl_max_isMaxOf
  · intro x hx
    rw [List.mem_map] at hx
    obtain ⟨i, hi, rfl⟩ := hx
    exact monthPermArea_nonneg (hnn i (mem_processedMonthImages_sub hi))
  · intro hcontra
    exact processedMonthImages_ne_nil hne (List.map_eq_nil_iff.mp hcontra)

/-- Claim C3, amended: for every successful response of `POST /snow-data`,
`permanent_snow.min_height_m` is 0 when no processed month yields a positive
minimum snow elevation; otherwise it equals the minimum over the processed
months with a positive minimum snow elevation (the smallest positive monthly
minimum), not over all processed months. -/
theorem min_height_m_is_min_of_positive_monthly_minima
    (o : EEWorld) (data : JVal) (roi : RoiPolygon) (s e : JVal) (b : SuccessBody)
    (hp : parseRequest data = .ok (roi, s, e))
    (h : get_snow_data o data = .ok b) :
    (posFilter ((processedMonthImages (o.query roi s e).images).map monthMinHeight) = [] →
      b.permanent_snow.min_height_m = 0) ∧
    (posFilter ((processedMonthImages (o.query roi s e).images).map monthMinHeight) ≠ [] →
      isMinOf b.permanent_snow.min_height_m
        (posFilter ((processedMonthImages (o.query roi s e).images).map monthMinHeight))) := by
  rw [get_snow_data_eq_handle hp] at h
  obtain ⟨_, _, _, _, _, hmin⟩ := handleWithData_ok h
  constructor
  · intro hp0
    rw [hmin, minFold_none_of_posFilter_nil none hp0]
  · intro hpne
    cases hmf : minFold none
        ((processedMonthImages (o.query roi s e).images).map monthMinHeight) with
    | none => exact absurd (minFold_none_eq_none hmf) hpne
    | some mv =>
      rw [hmin, hmf]
      exact minFold_none_some_spec hmf

/-- Claim C5: for every successful response of `POST /snow-data`, the
`results` list is sorted strictly ascending by the month label, so each
month label appears at most once. -/
theorem results_sorted_by_month
    (o : EEWorld) (data : JVal) (b : SuccessBody)
    (h : get_snow_data o data = .ok b) :
    b.results.Pairwise (fun r1 r2 => r1.month < r2.month) := by
  obtain ⟨roi, s, e, hp, hh⟩ := get_snow_data_ok_parse h
  obtain ⟨_, _, hres, _, _, _⟩ := handleWithData_ok hh
  rw [hres, List.pairwise_map]
  have hplt := pairwise_lt_distinctSortedMonths (o.query roi s e).images
  have hflt : ((distinctSortedMonths (o.query roi s e).images).filter
      (fun m => (bestOfMonth (o.query roi s e).images m).isSome)).Pairwise (· < ·) :=
    List.Pairwise.sublist (List.filter_sublist _) hplt
  rw [← processedOf_map_month, List.pairwise_map] at hflt
  exact hflt

/-! ## Error-path claims -/

theorem parseRequest_badParams (fs : List (String × JVal))
    (h : pyTruthy ((fs.lookup "geometry").getD .null) = false ∨
         pyTruthy ((fs.lookup "start_date").getD .null) = false ∨
         pyTruthy ((fs.lookup "end_date").getD .null) = false) :
    parseRequest (.obj fs) = .error .badParams := by
  have hcond : (!pyTruthy ((fs.lookup "geometry").getD .null) ||
      !pyTruthy ((fs.lookup "start_date").getD .null) ||
      !pyTruthy ((fs.lookup "end_date").getD .null)) = true := by
    rcases h with h | h | h <;> simp [h]
  simp only [parseRequest]
  rw [if_pos hcond]

theorem get_snow_data_badParams (o : EEWorld) (fs : List (String × JVal))
    (h : pyTruthy ((fs.lookup "geometry").getD .null) = false ∨
         pyTruthy ((fs.lookup "start_date").getD .null) = false ∨
         pyTruthy ((fs.lookup "end_date").getD .null) = false) :
    get_snow_data o (.obj fs) = .err 400 msgMissing := by
  rw [get_snow_data, parseRequest_badParams fs h]

/-- Claim C6: a `POST /snow-data` request body lacking any of `geometry`,
`start_date` or `end_date` yields HTTP 400 with an `error` field.  The
result is the same for every external world `o`, i.e. the external imagery
service is never consulted. -/
theorem missing_param_yields_400 (o : EEWorld) (fs : List (String × JVal))
    (h : fs.lookup "geometry" = none ∨ fs.lookup "start_date" = none ∨
         fs.lookup "end_date" = none) :
    get_snow_data o (.obj fs) = .err 400 msgMissing ∧
    responseJson (get_snow_data o (.obj fs)) = (400, .obj [("error", .str msgMissing)]) := by
  have hfal : pyTruthy ((fs.lookup "geometry").getD .null) = false ∨
      pyTruthy ((fs.lookup "start_date").getD .null) = false ∨
      pyTruthy ((fs.lookup "end_date").getD .null) = false := by
    rcases h with h | h | h
    · left; rw [h]; rfl
    · right; left; rw [h]; rfl
    · right; right; rw [h]; rfl
  have hmain := get_snow_data_badParams o fs hfal
  exact ⟨hmain, by rw [hmain]; rfl⟩

/-- Claim C10: the 400 rejection triggers on any falsy value of `geometry`,
`start_date` or `end_date`, not only on absence — a present-but-empty field
(empty string, empty object, empty array, zero, `null`, `false`) is rejected
with 400 and an `error` field just the same, for every external world `o`. -/
theorem falsy_param_yields_400 (o : EEWorld) (fs : List (String × JVal))
    (h : pyTruthy ((fs.lookup "geometry").getD .null) = false ∨
         pyTruthy ((fs.lookup "start_date").getD .null) = false ∨
         pyTruthy ((fs.lookup "end_date").getD .null) = false) :
    get_snow_data o (.obj fs) = .err 400 msgMissing ∧
    responseJson (get_snow_data o (.obj fs)) = (400, .obj [("error", .str msgMissing)]) := by
  have hmain := get_snow_data_badParams o fs h
  exact ⟨hmain, by rw [hmain]; rfl⟩

/-- Claim C7: when the external image search (after all filtering) reports
zero matching images for a well-formed request, the handler returns
HTTP 404 with an `error` field — not a 500. -/
theorem no_images_yields_404
    (o : EEWorld) (data : JVal) (roi : RoiPolygon) (s e : JVal)
    (hp : parseRequest data = .ok (roi, s, e))
    (h0 : (o.query roi s e).images = []) :
    get_snow_data o data = .err 404 msgNoImages ∧
    responseJson (get_snow_data o data) = (404, .obj [("error", .str msgNoImages)]) := by
  have heq := get_snow_data_eq_handle (o := o) hp
  have h404 : handleWithData (o.query roi s e) = .err 404 msgNoImages := by
    simp [handleWithData, h0]
  rw [heq, h404]
  exact ⟨rfl, rfl⟩

/-- Claim C2, amended: the `permanent_snow` object of every successful
response contains exactly the fields `area_m2`, `min_height_m` and
`total_area_m2`; there is no `region_name` field, and the handler performs
no reverse-geocoding call. -/
theorem permanent_snow_has_no_region_name
    (o : EEWorld) (data : JVal) (b : SuccessBody)
    (h : get_snow_data o data = .ok b) :
    responseJson (get_snow_data o data) =
      (200, .obj [("results", .arr (b.results.map monthResultJson)),
                  ("permanent_snow", permanentSnowJson b.permanent_snow)]) ∧
    objKeys (permanentSnowJson b.permanent_snow) =
      ["area_m2", "min_height_m", "total_area_m2"] ∧
    jLookup (permanentSnowJson b.permanent_snow) "region_name" = none := by
  rw [h]
  have h1 : (("region_name" : String) == "area_m2") = false := by decide
  have h2 : (("region_name" : String) == "min_height_m") = false := by decide
  have h3 : (("region_name" : String) == "total_area_m2") = false := by decide
  refine ⟨rfl, rfl, ?_⟩
  simp [jLookup, permanentSnowJson, List.lookup, h1, h2, h3]

/-! ## Isolation of thumbnail failures (claim C8) -/

/-- A loop state with the rows of month `m` nullified. -/
def mapNullState (m : String) (st : LoopState) : LoopState :=
  { st with results := st.results.map (nullifyMonth m) }

theorem failMonthThumbs_month (m : String) (i : EEImage) :
    (failMonthThumbs m i).month = i.month := by
  rw [failMonthThumbs]
  split <;> rfl

theorem failMonthThumbs_snowPixelCount (m : String) (i : EEImage) :
    (failMonthThumbs m i).snowPixelCount = i.snowPixelCount := by
  rw [failMonthThumbs]
  split <;> rfl

theorem failMonthThumbs_totalPixelCount (m : String) (i : EEImage) :
    (failMonthThumbs m i).totalPixelCount = i.totalPixelCount := by
  rw [failMonthThumbs]
  split <;> rfl

theorem calculate_permanent_snow_failMonthThumbs (m : String) (i : EEImage) :
    calculate_permanent_snow (failMonthThumbs m i) = calculate_permanent_snow i := by
  rw [failMonthThumbs]
  split <;> rfl

theorem monthSnowArea_failMonthThumbs (m : String) (i : EEImage) :
    monthSnowArea (failMonthThumbs m i) = monthSnowArea i := by
  rw [monthSnowArea, monthSnowArea, failMonthThumbs_snowPixelCount]

theorem entryOf_failMonthThumbs (m : String) (i : EEImage) :
    entryOf (failMonthThumbs m i) = nullifyMonth m (entryOf i) := by
  by_cases hm : i.month == m
  · simp [failMonthThumbs, hm, entryOf, nullifyMonth, thumbnails]
  · simp [failMonthThumbs, hm, entryOf, nullifyMonth]

theorem filter_failMonthThumbs (imgs : List EEImage) (m m' : String) :
    (imgs.map (failMonthThumbs m)).filter (fun i => i.month == m') =
      (imgs.filter (fun i => i.month == m')).map (failMonthThumbs m) := by
  rw [List.filter_map]
  congr 1
  exact List.filter_congr (fun i _ => by simp [Function.comp, failMonthThumbs_month])

theorem bestOfMonth_failMonthThumbs (imgs : List EEImage) (m m' : String) :
    bestOfMonth (imgs.map (failMonthThumbs m)) m' =
      (bestOfMonth imgs m').map (failMonthThumbs m) := by
  rw [bestOfMonth, bestOfMonth, filter_failMonthThumbs, List.head?_map]

theorem stepMonth_failMonthThumbs (imgs : List EEImage) (st : LoopState) (m m' : String) :
    stepMonth (imgs.map (failMonthThumbs m)) (mapNullState m st) m' =
      (stepMonth imgs st m').map (mapNullState m) := by
  cases hb : bestOfMonth imgs m' with
  | none =>
    have hb2 : bestOfMonth (imgs.map (failMonthThumbs m)) m' = none := by
      rw [bestOfMonth_failMonthThumbs, hb]; rfl
    rw [stepMonth_of_none hb2, stepMonth_of_none hb]
    rfl
  | some best =>
    have hb2 : bestOfMonth (imgs.map (failMonthThumbs m)) m' =
        some (failMonthThumbs m best) := by
      rw [bestOfMonth_failMonthThumbs, hb]; rfl
    cases hs : best.snowPixelCount with
    | none =>
      rw [stepMonth_of_some_err hb2
            (Or.inl (by rw [failMonthThumbs_snowPixelCount, hs])),
          stepMonth_of_some_err hb (Or.inl hs)]
      rfl
    | some sc =>
      cases ht : best.totalPixelCount with
      | none =>
        rw [stepMonth_of_some_err hb2
              (Or.inr (by rw [failMonthThumbs_totalPixelCount, ht])),
            stepMonth_of_some_err hb (Or.inr ht)]
        rfl
      | some tc =>
        rw [stepMonth_of_some_ok hb2 (by rw [failMonthThumbs_snowPixelCount, hs])
              (by rw [failMonthThumbs_totalPixelCount, ht]),
            stepMonth_of_some_ok hb hs ht]
        simp only [Except.map, mapNullState, entryOf_failMonthThumbs,
          monthSnowArea_failMonthThumbs, monthPermArea, monthMinHeight,
          calculate_permanent_snow_failMonthThumbs, List.map_append, List.map_cons,
          List.map_nil]

theorem runMonths_failMonthThumbs (imgs : List EEImage) (m : String) :
    ∀ (ms : List String) (st : LoopState),
      runMonths (imgs.map (failMonthThumbs m)) (mapNullState m st) ms =
        (runMonths imgs st ms).map (mapNullState m) := by
  intro ms
  induction ms with
  | nil => intro st; rfl
  | cons m' ms ih =>
    intro st
    rw [runMonths, runMonths, stepMonth_failMonthThumbs]
    cases stepMonth imgs st m' with
    | error e => rfl
    | ok st2 => exact ih st2

theorem months_failMonthThumbs (imgs : List EEImage) (m : String) :
    (imgs.map (failMonthThumbs m)).map (·.month) = imgs.map (·.month) := by
  rw [List.map_map]
  exact List.map_congr_left (fun i _ => failMonthThumbs_month m i)

theorem handleWithData_failData (d : EEData) (m : String) {b : SuccessBody}
    (h : handleWithData d = .ok b) :
    handleWithData (failData d m) =
      .ok { results := b.results.map (nullifyMonth m),
            permanent_snow := b.permanent_snow } := by
  simp only [handleWithData, failData] at h ⊢
  rw [List.length_map]
  by_cases hemp : d.images.length == 0
  · rw [if_pos hemp] at h; cases h
  · rw [if_neg hemp] at h ⊢
    have hmonths : distinctSortedMonths (d.images.map (failMonthThumbs m)) =
        distinctSortedMonths d.images := by
      rw [distinctSortedMonths, distinctSortedMonths, months_failMonthThumbs]
    rw [hmonths]
    have hinit : mapNullState m initState = initState := rfl
    rw [← hinit, runMonths_failMonthThumbs]
    cases hr : runMonths d.images initState (distinctSortedMonths d.images) with
    | error e => rw [hr] at h; cases h
    | ok st =>
      rw [hr] at h
      injection h with h
      subst h
      rfl

/-- Claim C8: if thumbnail rendering fails for the images of one month, the
request still succeeds, that month's rows get `null` URLs, and every other
month's row is unchanged. -/
theorem thumbnail_failure_isolated
    (o : EEWorld) (data : JVal) (m : String) (b : SuccessBody)
    (h : get_snow_data o data = .ok b) :
    get_snow_data (failThumbWorld o m) data =
      .ok { results := b.results.map (nullifyMonth m),
            permanent_snow := b.permanent_snow } ∧
    (∀ r ∈ b.results.map (nullifyMonth m), r.month = m →
      r.rgb_url = none ∧ r.snow_url = none) ∧
    (∀ r ∈ b.results, r.month ≠ m → nullifyMonth m r = r) := by
  obtain ⟨roi, s, e, hp, hh⟩ := get_snow_data_ok_parse h
  refine ⟨?_, ?_, ?_⟩
  · rw [get_snow_data_eq_handle (o := failThumbWorld o m) hp]
    exact handleWithData_failData (o.query roi s e) m hh
  · intro r hr hm
    rw [List.mem_map] at hr
    obtain ⟨r0, _, rfl⟩ := hr
    by_cases hb : r0.month == m
    · simp [nullifyMonth, hb]
    · rw [nullifyMonth, if_neg hb] at hm
      exact absurd (beq_iff_eq.mpr hm) hb
  · intro r _ hm
    rw [nullifyMonth, if_neg (by simpa using hm)]

/-! ## Coordinate reprojection (claim C9) -/

theorem swapPoint_pair (a b : ℚ) :
    swapPoint (.arr [.num a, .num b]) = .ok (.num b, .num a) := rfl

theorem mapM_swapPoint_ring (ring : List (ℚ × ℚ)) :
    (ring.map (fun p => JVal.arr [.num p.1, .num p.2])).mapM swapPoint =
      .ok (ring.map (fun p => (JVal.num p.2, JVal.num p.1))) := by
  induction ring with
  | nil => rfl
  | cons p t ih =>
    rw [List.map_cons, List.mapM_cons, swapPoint_pair, List.map_cons]
    rw [ih]
    rfl

theorem swapCoordinates_ringsJson (rs : List (List (ℚ × ℚ))) :
    swapCoordinates (ringsJson rs) =
      .ok (rs.map (fun ring => ring.map (fun p => (JVal.num p.2, JVal.num p.1)))) := by
  rw [ringsJson, swapCoordinates]
  induction rs with
  | nil => rfl
  | cons ring rest ih =>
    simp only [List.map_cons, List.mapM_cons, mapM_swapPoint_ring, ih]
    rfl

theorem mapM_toCoord_ring (ring : List (ℚ × ℚ)) :
    (ring.map (fun p => (JVal.num p.2, JVal.num p.1))).mapM
        (fun p => match p with
          | (JVal.num x, JVal.num y) => Except.ok (x, y)
          | _ => Except.error ()) =
      Except.ok (ring.map Prod.swap) := by
  induction ring with
  | nil => rfl
  | cons p t ih =>
    simp only [List.map_cons, List.mapM_cons, ih]
    rfl

theorem eePolygon_swapped (rs : List (List (ℚ × ℚ))) :
    eePolygon (rs.map (fun ring => ring.map (fun p => (JVal.num p.2, JVal.num p.1)))) =
      .ok (rs.map (fun ring => ring.map Prod.swap)) := by
  rw [eePolygon]
  induction rs with
  | nil => rfl
  | cons ring rest ih =>
    simp only [List.map_cons, List.mapM_cons, mapM_toCoord_ring, ih]
    rfl

/-- Claim C9: before the polygon reaches the external imagery service, every
vertex `[a, b]` of every ring becomes `[b, a]`, ring and vertex order
preserved; the handler then consults the external world exactly at that
swapped polygon. -/
theorem polygon_vertices_swapped (rs : List (List (ℚ × ℚ))) (s e : String)
    (hs : s ≠ "") (he : e ≠ "") :
    parseRequest (mkRequest rs s e) =
      .ok (rs.map (fun ring => ring.map Prod.swap), .str s, .str e) ∧
    ∀ o : EEWorld, get_snow_data o (mkRequest rs s e) =
      handleWithData (o.query (rs.map (fun ring => ring.map Prod.swap)) (.str s) (.str e)) := by
  have hps : pyTruthy (.str s) = true := by simp [pyTruthy, hs]
  have hpe : pyTruthy (.str e) = true := by simp [pyTruthy, he]
  have hparse : parseRequest (mkRequest rs s e) =
      .ok (rs.map (fun ring => ring.map Prod.swap), .str s, .str e) := by
    have k1 : (("start_date" : String) == "geometry") = false := by decide
    have k2 : (("end_date" : String) == "geometry") = false := by decide
    have k3 : (("end_date" : String) == "start_date") = false := by decide
    have k4 : (("coordinates" : String) == "type") = false := by decide
    simp only [mkRequest, parseRequest, List.lookup, beq_self_eq_true, if_pos,
      k1, k2, k3, k4, if_false, if_true, Option.getD_some, hps, hpe]
    rw [swapCoordinates_ringsJson]
    simp only [pyTruthy, List.isEmpty_cons, Bool.not_false, Bool.or_self, Bool.or_false,
      Bool.false_or, Bool.not_true]
    rw [show (eePolygon (rs.map (fun ring => ring.map (fun p => (JVal.num p.2, JVal.num p.1))))) =
        .ok (rs.map (fun ring => ring.map Prod.swap)) from eePolygon_swapped rs]
    rfl
  exact ⟨hparse, fun o => get_snow_data_eq_handle hparse⟩

/-! ## Concrete runs: counterexamples and witnesses -/

/-- A January image whose snow pixels reach down to sea level (minimum snow
elevation 0). -/
def imgJan : EEImage :=
  { id := "S2_20200115", date := "2020-01-15", month := "2020-01",
    snowPixelCount := some 5, totalPixelCount := some 10,
    minElevation := some 0, thumbOk := true,
    rgbUrl := "rgb-jan", snowUrl := "snow-jan" }

/-- A February image with minimum snow elevation 1000 m. -/
def imgFeb : EEImage :=
  { id := "S2_20200210", date := "2020-02-10", month := "2020-02",
    snowPixelCount := some 7, totalPixelCount := some 10,
    minElevation := some 1000, thumbOk := true,
    rgbUrl := "rgb-feb", snowUrl := "snow-feb" }

/-- A two-month query result (collection ordered by cloudiness, not by
month). -/
def demoData : EEData := { polygonArea := 123456, images := [imgFeb, imgJan] }

/-- A world that answers every query with `demoData`. -/
def demoWorld : EEWorld := ⟨fun _ _ _ => demoData⟩

/-- A world whose image search finds nothing. -/
def emptyWorld : EEWorld := ⟨fun _ _ _ => { polygonArea := 0, images := [] }⟩

/-- A triangle in (lat, lon) order. -/
def demoRings : List (List (ℚ × ℚ)) := [[(1, 2), (3, 4), (5, 6)]]

/-- A well-formed request body over `demoRings`. -/
def demoRequest : JVal := mkRequest demoRings "2020-01-01" "2020-03-01"

/-- The polygon the handler submits for `demoRequest`: each vertex swapped
to (lon, lat). -/
def demoRoi : RoiPolygon := [[(2, 1), (4, 3), (6, 5)]]

/-- The successful response body for `demoRequest` against `demoWorld`. -/
def demoBody : SuccessBody :=
  { results :=
      [{ month := "2020-01", image_date := "2020-01-15", image_id := "S2_20200115",
         snow_area_m2 := 500, total_area_m2 := 1000,
         rgb_url := some "rgb-jan", snow_url := some "snow-jan" },
       { month := "2020-02", image_date := "2020-02-10", image_id := "S2_20200210",
         snow_area_m2 := 700, total_area_m2 := 1000,
         rgb_url := some "rgb-feb", snow_url := some "snow-feb" }],
    permanent_snow := { area_m2 := 700, min_height_m := 1000, total_area_m2 := 700 } }

/-- Claim C2, counterexample: this successful (status 200) response's
`permanent_snow` object has exactly the keys `area_m2`, `min_height_m`,
`total_area_m2` and no `region_name` key, so the claim that every
successful response carries `permanent_snow.region_name` is false. -/
theorem region_name_absent_counterexample :
    (responseJson (get_snow_data demoWorld demoRequest)).1 = 200 ∧
    jLookup (responseJson (get_snow_data demoWorld demoRequest)).2 "permanent_snow" =
      some (permanentSnowJson demoBody.permanent_snow) ∧
    jLookup (permanentSnowJson demoBody.permanent_snow) "region_name" = none ∧
    objKeys (permanentSnowJson demoBody.permanent_snow) =
      ["area_m2", "min_height_m", "total_area_m2"] :=
  ⟨rfl, rfl, rfl, rfl⟩

/-- Claim C3, counterexample: January's minimum snow elevation is 0 and
February's is 1000, so some processed month yields a positive minimum and
the claim's "minimum over all processed months" is 0; the response reports
1000 (the minimum over the positive monthly minima only). -/
theorem min_height_counterexample :
    get_snow_data demoWorld demoRequest = .ok demoBody ∧
    (processedMonthImages demoData.images).map monthMinHeight = [0, 1000] ∧
    isMinOf 0 ((processedMonthImages demoData.images).map monthMinHeight) ∧
    (0 : ℤ) < 1000 ∧
    demoBody.permanent_snow.min_height_m = 1000 ∧
    (1000 : ℤ) ≠ 0 :=
  ⟨by decide, by decide, by decide, by decide, by decide, by decide⟩

theorem total_area_m2_is_max_monthly_snow_area_witness :
    demoBody.results.map (·.snow_area_m2)
      = (processedMonthImages demoData.images).map monthSnowArea ∧
    isMaxOf demoBody.permanent_snow.total_area_m2
      ((processedMonthImages demoData.images).map monthSnowArea) :=
  total_area_m2_is_max_monthly_snow_area demoWorld demoRequest demoRoi
    (.str "2020-01-01") (.str "2020-03-01") demoBody rfl (by decide) (by decide)

theorem area_m2_is_max_monthly_permanent_snow_witness :
    isMaxOf demoBody.permanent_snow.area_m2
      ((processedMonthImages demoData.images).map monthPermArea) :=
  area_m2_is_max_monthly_permanent_snow demoWorld demoRequest demoRoi
    (.str "2020-01-01") (.str "2020-03-01") demoBody rfl (by decide) (by decide)

theorem min_height_m_is_min_of_positive_monthly_minima_witness :
    (posFilter ((processedMonthImages demoData.images).map monthMinHeight) = [] →
      demoBody.permanent_snow.min_height_m = 0) ∧
    (posFilter ((processedMonthImages demoData.images).map monthMinHeight) ≠ [] →
      isMinOf demoBody.permanent_snow.min_height_m
        (posFilter ((processedMonthImages demoData.images).map monthMinHeight))) :=
  min_height_m_is_min_of_positive_monthly_minima demoWorld demoRequest demoRoi
    (.str "2020-01-01") (.str "2020-03-01") demoBody rfl (by decide)

theorem results_sorted_by_month_witness :
    demoBody.results.Pairwise (fun r1 r2 => r1.month < r2.month) :=
  results_sorted_by_month demoWorld demoRequest demoBody (by decide)

theorem permanent_snow_has_no_region_name_witness :
    responseJson (get_snow_data demoWorld demoRequest) =
      (200, .obj [("results", .arr (demoBody.results.map monthResultJson)),
                  ("permanent_snow", permanentSnowJson demoBody.permanent_snow)]) ∧
    objKeys (permanentSnowJson demoBody.permanent_snow) =
      ["area_m2", "min_height_m", "total_area_m2"] ∧
    jLookup (permanentSnowJson demoBody.permanent_snow) "region_name" = none :=
  permanent_snow_has_no_region_name demoWorld demoRequest demoBody (by decide)

/-- A request body with no `geometry` key at all. -/
def bodyNoGeometry : List (String × JVal) :=
  [("start_date", .str "2020-01-01"), ("end_date", .str "2020-03-01")]

theorem missing_param_yields_400_witness :
    get_snow_data demoWorld (.obj bodyNoGeometry) = .err 400 msgMissing ∧
    responseJson (get_snow_data demoWorld (.obj bodyNoGeometry)) =
      (400, .obj [("error", .str msgMissing)]) :=
  missing_param_yields_400 demoWorld bodyNoGeometry (Or.inl rfl)

theorem no_images_yields_404_witness :
    get_snow_data emptyWorld demoRequest = .err 404 msgNoImages ∧
    responseJson (get_snow_data emptyWorld demoRequest) =
      (404, .obj [("error", .str msgNoImages)]) :=
  no_images_yields_404 emptyWorld demoRequest demoRoi
    (.str "2020-01-01") (.str "2020-03-01") rfl rfl

theorem thumbnail_failure_isolated_witness :
    get_snow_data (failThumbWorld demoWorld "2020-02") demoRequest =
      .ok { results := demoBody.results.map (nullifyMonth "2020-02"),
            permanent_snow := demoBody.permanent_snow } ∧
    (∀ r ∈ demoBody.results.map (nullifyMonth "2020-02"), r.month = "2020-02" →
      r.rgb_url = none ∧ r.snow_url = none) ∧
    (∀ r ∈ demoBody.results, r.month ≠ "2020-02" → nullifyMonth "2020-02" r = r) :=
  thumbnail_failure_isolated demoWorld demoRequest "2020-02" demoBody (by decide)

theorem polygon_vertices_swapped_witness :
    parseRequest (mkRequest demoRings "2020-01-01" "2020-03-01") =
      .ok (demoRings.map (fun ring => ring.map Prod.swap), .str "2020-01-01",
        .str "2020-03-01") ∧
    ∀ o : EEWorld, get_snow_data o (mkRequest demoRings "2020-01-01" "2020-03-01") =
      handleWithData (o.query (demoRings.map (fun ring => ring.map Prod.swap))
        (.str "2020-01-01") (.str "2020-03-01")) :=
  polygon_vertices_swapped demoRings "2020-01-01" "2020-03-01" (by decide) (by decide)

/-- A request body whose three fields are all present but falsy: an empty
geometry object and an empty start date. -/
def bodyEmptyValues : List (String × JVal) :=
  [("geometry", .obj []), ("start_date", .str ""), ("end_date", .str "2020-03-01")]

theorem falsy_param_yields_400_witness :
    get_snow_data demoWorld (.obj bodyEmptyValues) = .err 400 msgMissing ∧
    responseJson (get_snow_data demoWorld (.obj bodyEmptyValues)) =
      (400, .obj [("error", .str msgMissing)]) :=
  falsy_param_yields_400 demoWorld bodyEmptyValues (Or.inl rfl)

end SnowMap
